import Mathlib

/-!
Verification development for the terraform-runner infrastructure lifecycle
orchestrator (`terraform-runner/deploy.py`).

The Python source is shallowly embedded: every external effect (filesystem
probes, subprocess executions, cloud-SDK calls, the role-assumption exchange,
the clock) is represented by an explicit environment/oracle value, and each
embedded function returns its result together with the list of effect events
it performed, in order.  Python exceptions are modelled with `Except`.
-/

set_option autoImplicit false

namespace TerraformRunner

/-! ### A small JSON value type, with the Python semantics the source relies on -/

/-- JSON values as produced by `json.load`. -/
inductive Json where
  | null
  | jbool (b : Bool)
  | jnum (n : Int)
  | jstr (s : String)
  | jarr (items : List Json)
  | jobj (fields : List (String × Json))

/-- Python truthiness (`if x:`) on JSON values: `None`, `False`, `0`, `""`,
`[]` and `{}` are falsy. -/
def truthy : Json → Bool
  | .null => false
  | .jbool b => b
  | .jnum n => n != 0
  | .jstr s => s != ""
  | .jarr items => !items.isEmpty
  | .jobj fields => !fields.isEmpty

/-- First binding of a key in an object (`dict` lookup). -/
def objGet (fields : List (String × Json)) (k : String) : Option Json :=
  (fields.find? (fun p => p.1 == k)).map (fun p => p.2)

/-- Character-list prefix test, used to implement substring search. -/
def charsPre : List Char → List Char → Bool
  | [], _ => true
  | _ :: _, [] => false
  | a :: as, b :: bs => a == b && charsPre as bs

/-- Character-list infix test. -/
def charsInfix : List Char → List Char → Bool
  | n, [] => n.isEmpty
  | n, c :: rest => charsPre n (c :: rest) || charsInfix n rest

/-- Python's `needle in hay` on strings (substring containment). -/
def containsSub (needle hay : String) : Bool :=
  charsInfix needle.data hay.data

/-- Python's `k in x` where `k` is a string: key membership for dicts, element
membership for lists, substring test for strings, `TypeError` otherwise. -/
def pyIn (needle : String) : Json → Except String Bool
  | .jobj fields => .ok (fields.any (fun p => p.1 == needle))
  | .jarr items => .ok (items.any (fun j => match j with
      | .jstr s => s == needle
      | _ => false))
  | .jstr s => .ok (containsSub needle s)
  | _ => .error "TypeError: argument is not iterable"

/-- Python's `x[k]` with a string key: dict lookup, `TypeError` on every
non-dict (list and string subscripts require integers). -/
def pyIndex (hay : Json) (k : String) : Except String Json :=
  match hay with
  | .jobj fields =>
    match objGet fields k with
    | some v => .ok v
    | none => .error "KeyError"
  | _ => .error "TypeError: indices must be integers"

/-- Python iteration `for x in v`: lists yield their elements, strings yield
their characters (as one-character strings), dicts yield their keys,
everything else raises `TypeError`. -/
def pyIter : Json → Except String (List Json)
  | .jarr items => .ok items
  | .jstr s => .ok (s.data.map (fun c => Json.jstr (String.mk [c])))
  | .jobj fields => .ok (fields.map (fun p => Json.jstr p.1))
  | _ => .error "TypeError: object is not iterable"

/-- Python's `x.get(k, default)`: defined on dicts only; any other receiver
raises `AttributeError`. -/
def pyGet (receiver : Json) (k : String) (default : Json) : Except String Json :=
  match receiver with
  | .jobj fields => .ok ((objGet fields k).getD default)
  | _ => .error "AttributeError: get"

/-- Does a JSON value equal a given Python string under Python `==`? -/
def Json.eqStr : Json → String → Bool
  | .jstr s, t => s == t
  | _, _ => false

/-- Python `str(v)`, as far as the orchestrator observes it (names and ids are
strings in practice; container renderings are abbreviated). -/
def pyStrOf : Json → String
  | .null => "None"
  | .jbool true => "True"
  | .jbool false => "False"
  | .jnum n => toString n
  | .jstr s => s
  | .jarr _ => "[...]"
  | .jobj _ => "\x7b...\x7d"

/-! ### StateInventoryExtractor (`extract_resources_from_state`) -/

/-- Record appended for an `aws_s3_bucket` resource instance. -/
structure S3BucketRec where
  name : Json
  arn : Json
  region : Json

/-- Record appended for an `aws_lambda_function` resource instance. -/
structure LambdaRec where
  name : Json
  arn : Json
  role : Json

/-- Record appended for an API-gateway resource instance; `gwtype` is the
`'v1'`/`'v2'` tag the extractor computes. -/
structure ApiGatewayRec where
  id : Json
  name : Json
  gwtype : String

/-- Record appended for an `aws_dynamodb_table` resource instance. -/
structure DynamoRec where
  name : Json
  arn : Json

/-- Record appended for an `aws_iam_role` resource instance. -/
structure IamRoleRec where
  name : Json
  arn : Json

/-- The five ordered collections built by `extract_resources_from_state`. -/
structure ResourceInventory where
  s3_buckets : List S3BucketRec
  lambda_functions : List LambdaRec
  api_gateways : List ApiGatewayRec
  dynamodb_tables : List DynamoRec
  iam_roles : List IamRoleRec

/-- The initial `resources` dictionary of empty lists. -/
def emptyInventory : ResourceInventory := ⟨[], [], [], [], []⟩

/-- Body of the inner `for instance in instances` loop: reads
`instance.get('attributes', {})` and dispatches on the resource type,
appending a typed record when the identifying attribute is truthy. -/
def processInstance (resource_type : Json) (inv : ResourceInventory)
    (inst : Json) : Except String ResourceInventory :=
  match pyGet inst "attributes" (Json.jobj []) with
  | .error e => .error e
  | .ok attributes =>
    if Json.eqStr resource_type "aws_s3_bucket" then
      match pyGet attributes "bucket" Json.null with
      | .error e => .error e
      | .ok bucket_name =>
        if truthy bucket_name then
          match pyGet attributes "arn" Json.null with
          | .error e => .error e
          | .ok arn =>
            match pyGet attributes "region" Json.null with
            | .error e => .error e
            | .ok region =>
              .ok { inv with s3_buckets := inv.s3_buckets ++ [⟨bucket_name, arn, region⟩] }
        else .ok inv
    else if Json.eqStr resource_type "aws_lambda_function" then
      match pyGet attributes "function_name" Json.null with
      | .error e => .error e
      | .ok function_name =>
        if truthy function_name then
          match pyGet attributes "arn" Json.null with
          | .error e => .error e
          | .ok arn =>
            match pyGet attributes "role" Json.null with
            | .error e => .error e
            | .ok role =>
              .ok { inv with
                lambda_functions := inv.lambda_functions ++ [⟨function_name, arn, role⟩] }
        else .ok inv
    else if Json.eqStr resource_type "aws_api_gateway_rest_api" ||
        Json.eqStr resource_type "aws_apigatewayv2_api" then
      match pyGet attributes "id" Json.null with
      | .error e => .error e
      | .ok api_id =>
        if truthy api_id then
          match pyGet attributes "name" Json.null with
          | .error e => .error e
          | .ok name =>
            .ok { inv with api_gateways := inv.api_gateways ++
              [⟨api_id, name,
                if Json.eqStr resource_type "aws_api_gateway_rest_api" then "v1" else "v2"⟩] }
        else .ok inv
    else if Json.eqStr resource_type "aws_dynamodb_table" then
      match pyGet attributes "name" Json.null with
      | .error e => .error e
      | .ok table_name =>
        if truthy table_name then
          match pyGet attributes "arn" Json.null with
          | .error e => .error e
          | .ok arn =>
            .ok { inv with dynamodb_tables := inv.dynamodb_tables ++ [⟨table_name, arn⟩] }
        else .ok inv
    else if Json.eqStr resource_type "aws_iam_role" then
      match pyGet attributes "name" Json.null with
      | .error e => .error e
      | .ok role_name =>
        if truthy role_name then
          match pyGet attributes "arn" Json.null with
          | .error e => .error e
          | .ok arn =>
            .ok { inv with iam_roles := inv.iam_roles ++ [⟨role_name, arn⟩] }
        else .ok inv
    else .ok inv

/-- The inner loop over a resource's instances. -/
def processInstances (resource_type : Json) :
    ResourceInventory → List Json → Except String ResourceInventory
  | inv, [] => .ok inv
  | inv, inst :: rest =>
    match processInstance resource_type inv inst with
    | .error e => .error e
    | .ok inv' => processInstances resource_type inv' rest

/-- Body of the outer `for resource in state_data['resources']` loop. -/
def processResource (inv : ResourceInventory) (resource : Json) :
    Except String ResourceInventory :=
  match pyGet resource "type" (Json.jstr "") with
  | .error e => .error e
  | .ok resource_type =>
    match pyGet resource "instances" (Json.jarr []) with
    | .error e => .error e
    | .ok instancesVal =>
      match pyIter instancesVal with
      | .error e => .error e
      | .ok insts => processInstances resource_type inv insts

/-- The outer loop over the document's resource list. -/
def processResources : ResourceInventory → List Json → Except String ResourceInventory
  | inv, [] => .ok inv
  | inv, r :: rest =>
    match processResource inv r with
    | .error e => .error e
    | .ok inv' => processResources inv' rest

/-- `extract_resources_from_state(state_data)`: returns the empty inventory
when the document is falsy or has no `resources` member; otherwise iterates
the resource list.  `Except.error` models a raised Python exception. -/
def extract_resources_from_state (state_data : Json) : Except String ResourceInventory :=
  if truthy state_data = false then .ok emptyInventory
  else
    match pyIn "resources" state_data with
    | .error e => .error e
    | .ok mem =>
      if mem = false then .ok emptyInventory
      else
        match pyIndex state_data "resources" with
        | .error e => .error e
        | .ok rv =>
          match pyIter rv with
          | .error e => .error e
          | .ok items => processResources emptyInventory items

/-! ### CleanupStrategies (`cleanup_s3_buckets`, `cleanup_lambda_functions`,
`cleanup_api_gateways`)

Cloud-SDK clients are oracles: each client operation is a function giving the
outcome the cloud would return for that call.  `Except.error` models a raised
SDK exception. -/

/-- Outcome of `s3_client.head_bucket`. -/
inductive HeadBucketOutcome where
  | ok
  | noSuchBucket
  | accessError (msg : String)

/-- One page of `list_object_versions` output: versions and delete markers,
each as (key, version-id). -/
structure VersionPage where
  versions : List (String × String)
  markers : List (String × String)

/-- Oracle for the object-storage client operations the strategy performs.
`delete_objects` is the same SDK batch-delete call in the source; it is split
here by the identifier shape it is given (keys vs versioned keys). -/
structure S3Client where
  head_bucket : String → HeadBucketOutcome
  list_objects_pages : String → Except String (List (List String))
  delete_objects : String → List String → Except String Unit
  list_version_pages : String → Except String (List VersionPage)
  delete_object_versions : String → List (String × String) → Except String Unit

/-- The object-deletion phase for one bucket: page through `list_objects_v2`
and batch-delete each non-empty page, counting deletions; a raise anywhere
aborts the phase with that error. -/
def deleteObjectsPhase (c : S3Client) (bucket_name : String) : Except String Nat :=
  match c.list_objects_pages bucket_name with
  | .error e => .error e
  | .ok pages => goPages pages 0
where
  goPages : List (List String) → Nat → Except String Nat
    | [], n => .ok n
    | page :: rest, n =>
      if page.isEmpty then goPages rest n
      else
        match c.delete_objects bucket_name page with
        | .error e => .error e
        | .ok _ => goPages rest (n + page.length)

/-- The version-deletion phase for one bucket: page through
`list_object_versions`, batch-deleting versions then delete markers. -/
def deleteVersionsPhase (c : S3Client) (bucket_name : String) : Except String Nat :=
  match c.list_version_pages bucket_name with
  | .error e => .error e
  | .ok pages => goPages pages 0
where
  goPages : List VersionPage → Nat → Except String Nat
    | [], n => .ok n
    | page :: rest, n =>
      match (if page.versions.isEmpty then .ok ()
             else c.delete_object_versions bucket_name page.versions : Except String Unit) with
      | .error e => .error e
      | .ok _ =>
        match (if page.markers.isEmpty then .ok ()
               else c.delete_object_versions bucket_name page.markers : Except String Unit) with
        | .error e => .error e
        | .ok _ => goPages rest (n + page.versions.length + page.markers.length)

/-- Per-bucket body of `cleanup_s3_buckets`: every exceptional path is caught
and becomes a log entry, then the next bucket is processed. -/
def cleanup_s3_bucket_one (c : S3Client) (bucket : S3BucketRec) : List String :=
  let bucket_name := pyStrOf bucket.name
  match c.head_bucket bucket_name with
  | .noSuchBucket => ["Bucket " ++ bucket_name ++ ": Already deleted"]
  | .accessError e => ["Bucket " ++ bucket_name ++ ": Access error - " ++ e]
  | .ok =>
    let objLogs :=
      match deleteObjectsPhase c bucket_name with
      | .ok n =>
        if n > 0 then ["Bucket " ++ bucket_name ++ ": Deleted " ++ toString n ++ " objects"]
        else []
      | .error e => ["Bucket " ++ bucket_name ++ ": Error deleting objects - " ++ e]
    let verLogs :=
      match deleteVersionsPhase c bucket_name with
      | .ok n =>
        if n > 0 then
          ["Bucket " ++ bucket_name ++ ": Deleted " ++ toString n ++ " versions/markers"]
        else []
      | .error e => ["Bucket " ++ bucket_name ++ ": Error deleting versions - " ++ e]
    objLogs ++ verLogs ++ ["Bucket " ++ bucket_name ++ ": Successfully cleaned"]

/-- `cleanup_s3_buckets(s3_client, buckets)`. -/
def cleanup_s3_buckets (c : S3Client) : List S3BucketRec → List String
  | [] => []
  | b :: rest => cleanup_s3_bucket_one c b ++ cleanup_s3_buckets c rest

/-- Oracle for the serverless-function client operations the strategy uses. -/
structure LambdaClient where
  list_event_source_mappings : String → Except String (List String)
  delete_event_source_mapping : String → Except String Unit

/-- The mapping-deletion loop: deletes each UUID in turn, aborting at the
first raise (which the caller's inner handler swallows). -/
def deleteMappings (c : LambdaClient) : List String → Except String Unit
  | [] => .ok ()
  | uuid :: rest =>
    match c.delete_event_source_mapping uuid with
    | .error e => .error e
    | .ok _ => deleteMappings c rest

/-- Per-function body of `cleanup_lambda_functions`: the inner handler swallows
any listing/deletion error without a cleanup-log entry, then the function's
"Prepared for deletion" entry is appended unconditionally. -/
def cleanup_lambda_one (c : LambdaClient) (f : LambdaRec) : List String :=
  let function_name := pyStrOf f.name
  match c.list_event_source_mappings function_name with
  | .error _ => ["Lambda " ++ function_name ++ ": Prepared for deletion"]
  | .ok uuids =>
    match deleteMappings c uuids with
    | _ => ["Lambda " ++ function_name ++ ": Prepared for deletion"]

/-- `cleanup_lambda_functions(lambda_client, functions)`. -/
def cleanup_lambda_functions (c : LambdaClient) : List LambdaRec → List String
  | [] => []
  | f :: rest => cleanup_lambda_one c f ++ cleanup_lambda_functions c rest

/-- Outcome of an API-gateway existence check. -/
inductive ApiGetOutcome where
  | ok
  | notFound
  | otherError (msg : String)

/-- Oracle for the v1 REST-API client (`get_rest_api`). -/
structure ApiGatewayClient where
  get_rest_api : String → ApiGetOutcome

/-- Oracle for the v2 HTTP-API client (`get_api`). -/
structure ApiGatewayV2Client where
  get_api : String → ApiGetOutcome

/-- Per-gateway body of `cleanup_api_gateways`: the inner handler catches only
not-found; any other raise reaches the outer handler and becomes a
"Check warning" entry. -/
def cleanup_api_gateway_one (v1c : ApiGatewayClient) (v2c : ApiGatewayV2Client)
    (gateway : ApiGatewayRec) : List String :=
  let gateway_id := pyStrOf gateway.id
  if gateway.gwtype == "v1" then
    match v1c.get_rest_api gateway_id with
    | .ok => ["API Gateway v1 " ++ gateway_id ++ ": Ready for deletion"]
    | .notFound => ["API Gateway v1 " ++ gateway_id ++ ": Already deleted"]
    | .otherError e => ["API Gateway " ++ gateway_id ++ ": Check warning - " ++ e]
  else
    match v2c.get_api gateway_id with
    | .ok => ["API Gateway v2 " ++ gateway_id ++ ": Ready for deletion"]
    | .notFound => ["API Gateway v2 " ++ gateway_id ++ ": Already deleted"]
    | .otherError e => ["API Gateway " ++ gateway_id ++ ": Check warning - " ++ e]

/-- `cleanup_api_gateways(apigateway_client, apigatewayv2_client, gateways)`. -/
def cleanup_api_gateways (v1c : ApiGatewayClient) (v2c : ApiGatewayV2Client) :
    List ApiGatewayRec → List String
  | [] => []
  | g :: rest => cleanup_api_gateway_one v1c v2c g ++ cleanup_api_gateways v1c v2c rest

/-! ### CredentialBroker (`AWSCredentialManager.get_credentials_for_user`)

Time is an explicit `Int` parameter (the value of `time.time()` at the cache
check); the STS exchange is an oracle carried in the environment.  The cache
is the mutable `self.cached_credentials` dictionary, modelled as a map from
the string cache key to its entry. -/

/-- The credential dictionary built from an assume-role response. -/
structure CredSet where
  aws_access_key_id : String
  aws_secret_access_key : String
  aws_session_token : String
deriving DecidableEq

/-- One cached entry: the credentials and the safety-adjusted expiration. -/
structure CacheEntry where
  credentials : CredSet
  expiration : Int
deriving DecidableEq

/-- The `cached_credentials` dictionary, keyed by the concatenated string key. -/
abbrev CredCache := String → Option CacheEntry

/-- The empty cache. -/
def emptyCache : CredCache := fun _ => none

/-- The `Credentials` object of an assume-role response (`Expiration` as a
Unix timestamp in seconds). -/
structure RespCreds where
  access_key_id : String
  secret_access_key : String
  session_token : String
  expiration : Int

/-- An assume-role response; `credentials = none` models a response without a
`Credentials` member. -/
structure StsResponse where
  credentials : Option RespCreds

/-- Environment for one `get_credentials_for_user` call: the two required
environment variables as `os.getenv` returns them, and the outcome the STS
service would give this call's `assume_role`. -/
structure StsEnv where
  role_arn : Option String
  external_id : Option String
  assume_role : Except String StsResponse

/-- Python truthiness of an `os.getenv` result (`None` and `""` are falsy). -/
def envTruthy : Option String → Bool
  | none => false
  | some s => s != ""

/-- The `try` body from the environment-variable checks through caching: the
`Nat` counts role-assumption exchanges actually performed (0 or 1). -/
def assumeRoleAndCache (env : StsEnv) (cache : CredCache) (cache_key : String) :
    Except String CredSet × CredCache × Nat :=
  if envTruthy env.role_arn = false then
    (.error "AWS role assumption failed: AWS_ROLE_ARN environment variable is required for STS assume role",
     cache, 0)
  else if envTruthy env.external_id = false then
    (.error "AWS role assumption failed: AWS_EXTERNAL_ID environment variable is required for STS assume role",
     cache, 0)
  else
    match env.assume_role with
    | .error e => (.error ("AWS role assumption failed: " ++ e), cache, 1)
    | .ok response =>
      match response.credentials with
      | none =>
        (.error "AWS role assumption failed: Failed to assume AWS role - no credentials returned",
         cache, 1)
      | some rc =>
        let credentials : CredSet := ⟨rc.access_key_id, rc.secret_access_key, rc.session_token⟩
        let expiration_time := rc.expiration - 10 * 60
        (.ok credentials,
         fun k => if k = cache_key then some ⟨credentials, expiration_time⟩ else cache k,
         1)

/-- `get_credentials_for_user(user_id, project_id)`: check the cache under the
key `f"{user_id}-{project_id}"`, evicting an expired entry, then fall through
to the role-assumption exchange.  Returns (result, new cache, exchanges). -/
def get_credentials_for_user (env : StsEnv) (now : Int) (cache : CredCache)
    (user_id project_id : String) : Except String CredSet × CredCache × Nat :=
  let cache_key := user_id ++ "-" ++ project_id
  match cache cache_key with
  | some cached =>
    if cached.expiration > now then (.ok cached.credentials, cache, 0)
    else
      let cache' : CredCache := fun k => if k = cache_key then none else cache k
      assumeRoleAndCache env cache' cache_key
  | none => assumeRoleAndCache env cache cache_key

/-! ### ProvisioningEngineRunner + DestroyRetryController
(`destroy_terraform_with_cleanup`) and deploy (`deploy_terraform`)

Each embedded pipeline returns its structured result together with the
ordered list of effect events it performed. -/

/-- Effect events, in the order the pipeline performs them. -/
inductive Ev where
  | getCredentials
  | getAwsClients
  | parseJson
  | cleanupS3
  | cleanupLambda
  | cleanupApi
  | tfDestroy
  | tfRefresh
  | rmtreeWorkspace
  | removeEmptyState
  | tfVersionCheck
  | tfInit
  | tfApply
deriving DecidableEq

/-- A completed subprocess: exit code and captured output. -/
structure RunCompleted where
  returncode : Int
  stdout : String
  stderr : String

/-- Outcome of a `subprocess.run` invocation: completion, a
`TimeoutExpired` raise, or some other raise. -/
inductive RunOutcome where
  | completed (r : RunCompleted)
  | timedOut
  | exn (msg : String)

/-- The cloud-SDK client bundle built by `get_aws_clients`. -/
structure Clients where
  s3 : S3Client
  lambdaClient : LambdaClient
  apigateway : ApiGatewayClient
  apigatewayv2 : ApiGatewayV2Client

/-- Environment for one `destroy_terraform_with_cleanup` invocation: the
filesystem facts probed, and the outcome each external call would have. -/
structure DestroyEnv where
  workspace_exists : Bool
  state_file_exists : Bool
  state_file_size : Nat
  credentials_result : Except String Unit
  aws_clients : Option Clients
  state_parse : Except String Json
  first_destroy : RunOutcome
  refresh_run : RunOutcome
  second_destroy : RunOutcome
  rmtree_result : Except String Unit

/-- The dictionary returned by `destroy_terraform_with_cleanup`. -/
structure DestroyResult where
  status : String
  stdout : String
  stderr : String
  cleanup_logs : List String

/-- Logs and events of the pre-cleanup phase (`get_aws_clients`, state parse,
inventory extraction, and the three strategies; any raise inside the `try`
degrades to a single "Pre-cleanup error" entry). -/
structure PreOut where
  logs : List String
  events : List Ev

/-- Step 1–2 of destroy: read and parse the state file, extract the
inventory, and run the strategies in order when clients are available. -/
def preCleanup (env : DestroyEnv) : PreOut :=
  match env.state_parse with
  | .error e => ⟨["Pre-cleanup error: " ++ e], [Ev.getAwsClients, Ev.parseJson]⟩
  | .ok doc =>
    match extract_resources_from_state doc with
    | .error e => ⟨["Pre-cleanup error: " ++ e], [Ev.getAwsClients, Ev.parseJson]⟩
    | .ok resources =>
      match env.aws_clients with
      | none =>
        ⟨["Warning: AWS clients not available for pre-cleanup"],
         [Ev.getAwsClients, Ev.parseJson]⟩
      | some clients =>
        let s3Part : List String × List Ev :=
          if resources.s3_buckets.isEmpty then ([], [])
          else (cleanup_s3_buckets clients.s3 resources.s3_buckets, [Ev.cleanupS3])
        let lambdaPart : List String × List Ev :=
          if resources.lambda_functions.isEmpty then ([], [])
          else (cleanup_lambda_functions clients.lambdaClient resources.lambda_functions,
                [Ev.cleanupLambda])
        let apiPart : List String × List Ev :=
          if resources.api_gateways.isEmpty then ([], [])
          else (cleanup_api_gateways clients.apigateway clients.apigatewayv2
                  resources.api_gateways, [Ev.cleanupApi])
        ⟨s3Part.1 ++ lambdaPart.1 ++ apiPart.1,
         [Ev.getAwsClients, Ev.parseJson] ++ s3Part.2 ++ lambdaPart.2 ++ apiPart.2⟩

/-- Outcome of step 3 (the destroy attempt, conditional refresh and retry):
final return code, captured output, the log entries the `try`/`except`
appended, and the subprocess events performed. -/
structure AttemptOut where
  return_code : Int
  stdout : String
  stderr : String
  logs : List String
  events : List Ev

/-- The timeout handler's contribution (`except subprocess.TimeoutExpired`). -/
def timeoutAttempt (evs : List Ev) : AttemptOut :=
  ⟨1, "", "Terraform destroy timed out after 10 minutes",
   ["Error: Terraform destroy timeout"], evs⟩

/-- The generic exception handler's contribution (`except Exception`). -/
def exnAttempt (e : String) (evs : List Ev) : AttemptOut :=
  ⟨1, "", "Error running terraform destroy: " ++ e,
   ["Error: Exception during destroy - " ++ e], evs⟩

/-- Step 3 of destroy: run the first destroy; on a non-zero exit whose stderr
lacks the `BucketNotEmpty` marker, run a refresh (its exit code ignored, but
its own raise aborts the retry) and a second destroy whose result is final. -/
def destroyAttempt (env : DestroyEnv) : AttemptOut :=
  match env.first_destroy with
  | .timedOut => timeoutAttempt [Ev.tfDestroy]
  | .exn e => exnAttempt e [Ev.tfDestroy]
  | .completed r =>
    if r.returncode ≠ 0 ∧ containsSub "BucketNotEmpty" r.stderr = false then
      match env.refresh_run with
      | .timedOut => timeoutAttempt [Ev.tfDestroy, Ev.tfRefresh]
      | .exn e => exnAttempt e [Ev.tfDestroy, Ev.tfRefresh]
      | .completed _ =>
        match env.second_destroy with
        | .timedOut => timeoutAttempt [Ev.tfDestroy, Ev.tfRefresh, Ev.tfDestroy]
        | .exn e => exnAttempt e [Ev.tfDestroy, Ev.tfRefresh, Ev.tfDestroy]
        | .completed r2 =>
          ⟨r2.returncode, r2.stdout, r2.stderr, ["Performed retry with refresh"],
           [Ev.tfDestroy, Ev.tfRefresh, Ev.tfDestroy]⟩
    else ⟨r.returncode, r.stdout, r.stderr, [], [Ev.tfDestroy]⟩

/-- Status, logs and events of step 4: on exit 0, append the success entry and
attempt `shutil.rmtree` (a raise becomes a warning entry, status unchanged);
otherwise append the failure entry. -/
structure FinalOut where
  status : String
  logs : List String
  events : List Ev

/-- Step 4 of destroy. -/
def finalizeDestroy (env : DestroyEnv) (return_code : Int) (stderr : String) : FinalOut :=
  if return_code = 0 then
    match env.rmtree_result with
    | .ok _ =>
      ⟨"success", ["SUCCESS: All infrastructure destroyed", "Workspace directory cleaned up"],
       [Ev.rmtreeWorkspace]⟩
    | .error e =>
      ⟨"success",
       ["SUCCESS: All infrastructure destroyed", "Warning: Workspace cleanup failed - " ++ e],
       [Ev.rmtreeWorkspace]⟩
  else ⟨"error", ["FAILED: Terraform destroy failed - " ++ stderr], []⟩

/-- The entry appended when credential resolution raises. -/
def credentialLogs (env : DestroyEnv) : List String :=
  match env.credentials_result with
  | .ok _ => []
  | .error e => ["Warning: Could not get AWS credentials - " ++ e]

/-- `destroy_terraform_with_cleanup(project_id, user_id)`: missing Workspace
or absent/zero-length state short-circuits to success with an empty cleanup
log; otherwise pre-cleanup, the destroy attempt(s) and finalization run. -/
def destroy_terraform_with_cleanup (env : DestroyEnv) : DestroyResult × List Ev :=
  if env.workspace_exists = false then
    (⟨"success", "No infrastructure to destroy - workspace does not exist", "", []⟩, [])
  else if env.state_file_exists = false ∨ env.state_file_size = 0 then
    (⟨"success", "No infrastructure to destroy - no state found", "", []⟩, [Ev.getCredentials])
  else
    let pre := preCleanup env
    let att := destroyAttempt env
    let fin := finalizeDestroy env att.return_code att.stderr
    (⟨fin.status, att.stdout, att.stderr,
      credentialLogs env ++ pre.logs ++ att.logs ++ fin.logs⟩,
     [Ev.getCredentials] ++ pre.events ++ att.events ++ fin.events)

/-- Environment for one `deploy_terraform` invocation. -/
structure DeployEnv where
  credentials_result : Except String Unit
  state_file_exists : Bool
  state_file_size : Nat
  init_result : RunCompleted
  apply_result : RunCompleted

/-- The three result shapes `deploy_terraform` returns. -/
inductive DeployResult where
  | credFailure (logs error : String)
  | initFailure (logs error : String)
  | finished (status stdout stderr : String)

/-- `deploy_terraform(project_id, user_id)`: resolve credentials, remove a
zero-length state file, check the engine version, run init (terminal on
failure), then apply. -/
def deploy_terraform (env : DeployEnv) : DeployResult × List Ev :=
  match env.credentials_result with
  | .error e => (.credFailure e "Failed to get AWS credentials", [Ev.getCredentials])
  | .ok _ =>
    let ev1 : List Ev :=
      if env.state_file_exists = true ∧ env.state_file_size = 0 then
        [Ev.getCredentials, Ev.removeEmptyState]
      else [Ev.getCredentials]
    let ev2 := ev1 ++ [Ev.tfVersionCheck, Ev.tfInit]
    if env.init_result.returncode ≠ 0 then
      (.initFailure env.init_result.stderr "Terraform init failed", ev2)
    else
      let r := env.apply_result
      (.finished (if r.returncode = 0 then "success" else "error") r.stdout r.stderr,
       ev2 ++ [Ev.tfApply])

/-! ### Helper lemmas about the event traces -/

/-- Number of occurrences of an event in a trace. -/
def countEv (e : Ev) : List Ev → Nat
  | [] => 0
  | x :: xs => (if x = e then 1 else 0) + countEv e xs

theorem countEv_append (e : Ev) (l1 l2 : List Ev) :
    countEv e (l1 ++ l2) = countEv e l1 + countEv e l2 := by
  induction l1 with
  | nil => simp [countEv]
  | cons x xs ih => simp [countEv, ih]; omega

theorem countEv_eq_zero_of_not_mem {e : Ev} {l : List Ev} (h : e ∉ l) :
    countEv e l = 0 := by
  induction l with
  | nil => rfl
  | cons x xs ih =>
    simp only [List.mem_cons, not_or] at h
    have hx : ¬x = e := fun hx => h.1 hx.symm
    simp [countEv, ih h.2, hx]

/-- The pre-cleanup phase performs no engine subprocess and no workspace
removal, and does not resolve credentials itself. -/
theorem preCleanup_events_bound (env : DestroyEnv) :
    ∀ e ∈ (preCleanup env).events,
      e = Ev.getAwsClients ∨ e = Ev.parseJson ∨ e = Ev.cleanupS3 ∨
      e = Ev.cleanupLambda ∨ e = Ev.cleanupApi := by
  intro e he
  unfold preCleanup at he
  split at he
  · simp at he; tauto
  · split at he
    · simp at he; tauto
    · split at he
      · simp at he; tauto
      · simp only [] at he
        split at he <;> split at he <;> split at he <;> simp at he <;> tauto

theorem tfDestroy_not_mem_preCleanup (env : DestroyEnv) :
    Ev.tfDestroy ∉ (preCleanup env).events := by
  intro h
  rcases preCleanup_events_bound env Ev.tfDestroy h with h' | h' | h' | h' | h' <;> cases h'

theorem tfRefresh_not_mem_preCleanup (env : DestroyEnv) :
    Ev.tfRefresh ∉ (preCleanup env).events := by
  intro h
  rcases preCleanup_events_bound env Ev.tfRefresh h with h' | h' | h' | h' | h' <;> cases h'

theorem rmtree_not_mem_preCleanup (env : DestroyEnv) :
    Ev.rmtreeWorkspace ∉ (preCleanup env).events := by
  intro h
  rcases preCleanup_events_bound env Ev.rmtreeWorkspace h with h' | h' | h' | h' | h' <;> cases h'

/-- The destroy-attempt phase performs one of exactly three event sequences. -/
theorem destroyAttempt_events_cases (env : DestroyEnv) :
    (destroyAttempt env).events = [Ev.tfDestroy] ∨
    (destroyAttempt env).events = [Ev.tfDestroy, Ev.tfRefresh] ∨
    (destroyAttempt env).events = [Ev.tfDestroy, Ev.tfRefresh, Ev.tfDestroy] := by
  unfold destroyAttempt timeoutAttempt exnAttempt
  cases env.first_destroy with
  | timedOut => simp
  | exn e => simp
  | completed r =>
    simp only []
    split
    · cases env.refresh_run with
      | timedOut => simp
      | exn e => simp
      | completed r2 => cases env.second_destroy <;> simp
    · simp

theorem rmtree_not_mem_destroyAttempt (env : DestroyEnv) :
    Ev.rmtreeWorkspace ∉ (destroyAttempt env).events := by
  rcases destroyAttempt_events_cases env with h | h | h <;> rw [h] <;> decide

/-- The finalization phase: workspace removal is attempted exactly on exit
code zero, and the status is "success" exactly on exit code zero. -/
theorem finalizeDestroy_cases (env : DestroyEnv) (rc : Int) (se : String) :
    (rc = 0 ∧ (finalizeDestroy env rc se).status = "success" ∧
      (finalizeDestroy env rc se).events = [Ev.rmtreeWorkspace]) ∨
    (rc ≠ 0 ∧ (finalizeDestroy env rc se).status = "error" ∧
      (finalizeDestroy env rc se).events = []) := by
  unfold finalizeDestroy
  by_cases h : rc = 0
  · left
    refine ⟨h, ?_⟩
    rw [if_pos h]
    cases env.rmtree_result <;> simp
  · right
    refine ⟨h, ?_⟩
    rw [if_neg h]
    simp

theorem tfDestroy_mem_destroyAttempt (env : DestroyEnv) :
    Ev.tfDestroy ∈ (destroyAttempt env).events := by
  rcases destroyAttempt_events_cases env with h | h | h <;> rw [h] <;> decide

theorem cleanup_not_mem_destroyAttempt (env : DestroyEnv) :
    Ev.cleanupS3 ∉ (destroyAttempt env).events ∧
    Ev.cleanupLambda ∉ (destroyAttempt env).events ∧
    Ev.cleanupApi ∉ (destroyAttempt env).events := by
  rcases destroyAttempt_events_cases env with h | h | h <;> rw [h] <;> refine ⟨?_, ?_, ?_⟩ <;> decide

theorem cleanup_not_mem_finalize (env : DestroyEnv) (rc : Int) (se : String) :
    Ev.cleanupS3 ∉ (finalizeDestroy env rc se).events ∧
    Ev.cleanupLambda ∉ (finalizeDestroy env rc se).events ∧
    Ev.cleanupApi ∉ (finalizeDestroy env rc se).events := by
  rcases finalizeDestroy_cases env rc se with ⟨_, _, h⟩ | ⟨_, _, h⟩ <;> rw [h] <;>
    refine ⟨?_, ?_, ?_⟩ <;> decide

/-! ### C1 — destroy is an idempotent no-op without a Workspace or state -/

/-- C1: when the Workspace does not exist, or the state file is absent or has
zero length, `destroy_terraform_with_cleanup` returns status "success" with an
explanatory stdout message and an empty cleanup log, and performs no engine
destroy/refresh and no cleanup strategy.  The embedding is a function of the
environment, so any number of invocations under these conditions return this
same result. -/
theorem destroy_noop_when_no_state (env : DestroyEnv)
    (h : env.workspace_exists = false ∨ env.state_file_exists = false ∨
      env.state_file_size = 0) :
    (destroy_terraform_with_cleanup env).1.status = "success" ∧
    (destroy_terraform_with_cleanup env).1.cleanup_logs = [] ∧
    ((destroy_terraform_with_cleanup env).1.stdout =
        "No infrastructure to destroy - workspace does not exist" ∨
     (destroy_terraform_with_cleanup env).1.stdout =
        "No infrastructure to destroy - no state found") ∧
    Ev.tfDestroy ∉ (destroy_terraform_with_cleanup env).2 ∧
    Ev.tfRefresh ∉ (destroy_terraform_with_cleanup env).2 ∧
    Ev.cleanupS3 ∉ (destroy_terraform_with_cleanup env).2 ∧
    Ev.cleanupLambda ∉ (destroy_terraform_with_cleanup env).2 ∧
    Ev.cleanupApi ∉ (destroy_terraform_with_cleanup env).2 := by
  unfold destroy_terraform_with_cleanup
  by_cases hw : env.workspace_exists = false
  · rw [if_pos hw]
    refine ⟨rfl, rfl, Or.inl rfl, ?_, ?_, ?_, ?_, ?_⟩ <;> simp
  · rw [if_neg hw]
    have hns : env.state_file_exists = false ∨ env.state_file_size = 0 := by tauto
    rw [if_pos hns]
    refine ⟨rfl, rfl, Or.inr rfl, ?_, ?_, ?_, ?_, ?_⟩ <;> decide

/-- A no-state environment used to witness C1. -/
def noStateEnv : DestroyEnv where
  workspace_exists := true
  state_file_exists := false
  state_file_size := 0
  credentials_result := .ok ()
  aws_clients := none
  state_parse := .error "Expecting value"
  first_destroy := .timedOut
  refresh_run := .timedOut
  second_destroy := .timedOut
  rmtree_result := .ok ()

theorem destroy_noop_when_no_state_witness :
    (destroy_terraform_with_cleanup noStateEnv).1.status = "success" ∧
    (destroy_terraform_with_cleanup noStateEnv).1.cleanup_logs = [] :=
  ⟨(destroy_noop_when_no_state noStateEnv (Or.inr (Or.inl rfl))).1,
   (destroy_noop_when_no_state noStateEnv (Or.inr (Or.inl rfl))).2.1⟩

/-! ### C8 — first-attempt timeout: no refresh, no retry, timeout error -/

/-- C8: when the first engine destroy subprocess times out, no refresh and no
second destroy attempt are performed; the result has status "error", stderr
"Terraform destroy timed out after 10 minutes", empty stdout, and the cleanup
log gains the entry "Error: Terraform destroy timeout". -/
theorem destroy_first_attempt_timeout (env : DestroyEnv)
    (hw : env.workspace_exists = true) (hs : env.state_file_exists = true)
    (hsz : env.state_file_size ≠ 0) (h1 : env.first_destroy = RunOutcome.timedOut) :
    (destroy_terraform_with_cleanup env).1.status = "error" ∧
    (destroy_terraform_with_cleanup env).1.stderr =
      "Terraform destroy timed out after 10 minutes" ∧
    (destroy_terraform_with_cleanup env).1.stdout = "" ∧
    "Error: Terraform destroy timeout" ∈ (destroy_terraform_with_cleanup env).1.cleanup_logs ∧
    countEv Ev.tfDestroy (destroy_terraform_with_cleanup env).2 = 1 ∧
    countEv Ev.tfRefresh (destroy_terraform_with_cleanup env).2 = 0 := by
  have hatt : destroyAttempt env = timeoutAttempt [Ev.tfDestroy] := by
    unfold destroyAttempt; rw [h1]
  have hpre1 := countEv_eq_zero_of_not_mem (tfDestroy_not_mem_preCleanup env)
  have hpre2 := countEv_eq_zero_of_not_mem (tfRefresh_not_mem_preCleanup env)
  unfold destroy_terraform_with_cleanup
  rw [hw, hs]
  simp only [Bool.true_eq_false, false_or, hsz, if_false, if_neg, hatt, timeoutAttempt]
  refine ⟨?_, ?_, ?_, ?_, ?_, ?_⟩
  · unfold finalizeDestroy
    norm_num
  · trivial
  · trivial
  · simp [finalizeDestroy, List.mem_append]
  · simp [countEv_append, countEv, hpre1, finalizeDestroy]
  · simp [countEv_append, countEv, hpre2, finalizeDestroy]

/-- A first-attempt-timeout environment used to witness C8. -/
def timeoutEnv : DestroyEnv where
  workspace_exists := true
  state_file_exists := true
  state_file_size := 5
  credentials_result := .ok ()
  aws_clients := none
  state_parse := .error "Expecting value"
  first_destroy := .timedOut
  refresh_run := .timedOut
  second_destroy := .timedOut
  rmtree_result := .ok ()

theorem destroy_first_attempt_timeout_witness :
    (destroy_terraform_with_cleanup timeoutEnv).1.status = "error" ∧
    countEv Ev.tfDestroy (destroy_terraform_with_cleanup timeoutEnv).2 = 1 :=
  ⟨(destroy_first_attempt_timeout timeoutEnv rfl rfl (by decide) rfl).1,
   (destroy_first_attempt_timeout timeoutEnv rfl rfl (by decide) rfl).2.2.2.2.1⟩

/-! ### C9 — a malformed (unparseable) state file does not fail destroy -/

/-- C9: when the Workspace exists and the state file is non-empty but JSON
parsing raises, the failure is caught and recorded as a "Pre-cleanup error"
log entry, no cleanup strategy runs, the engine destroy still runs, and a
successful destroy attempt yields an overall "success" result. -/
theorem destroy_tolerates_malformed_state (env : DestroyEnv) (e : String)
    (hw : env.workspace_exists = true) (hs : env.state_file_exists = true)
    (hsz : env.state_file_size ≠ 0) (hp : env.state_parse = Except.error e) :
    ("Pre-cleanup error: " ++ e) ∈ (destroy_terraform_with_cleanup env).1.cleanup_logs ∧
    Ev.cleanupS3 ∉ (destroy_terraform_with_cleanup env).2 ∧
    Ev.cleanupLambda ∉ (destroy_terraform_with_cleanup env).2 ∧
    Ev.cleanupApi ∉ (destroy_terraform_with_cleanup env).2 ∧
    Ev.tfDestroy ∈ (destroy_terraform_with_cleanup env).2 ∧
    (∀ r, env.first_destroy = RunOutcome.completed r → r.returncode = 0 →
      (destroy_terraform_with_cleanup env).1.status = "success") := by
  have hpre : preCleanup env =
      ⟨["Pre-cleanup error: " ++ e], [Ev.getAwsClients, Ev.parseJson]⟩ := by
    unfold preCleanup; rw [hp]
  have ha1 := (cleanup_not_mem_destroyAttempt env).1
  have ha2 := (cleanup_not_mem_destroyAttempt env).2.1
  have ha3 := (cleanup_not_mem_destroyAttempt env).2.2
  unfold destroy_terraform_with_cleanup
  rw [hw, hs]
  simp only [Bool.true_eq_false, false_or, hsz, if_neg, if_false, hpre]
  refine ⟨?_, ?_, ?_, ?_, ?_, ?_⟩
  · simp [List.mem_append]
  · have hf := (cleanup_not_mem_finalize env (destroyAttempt env).return_code
      (destroyAttempt env).stderr).1
    simp [List.mem_append, ha1, hf]
  · have hf := (cleanup_not_mem_finalize env (destroyAttempt env).return_code
      (destroyAttempt env).stderr).2.1
    simp [List.mem_append, ha2, hf]
  · have hf := (cleanup_not_mem_finalize env (destroyAttempt env).return_code
      (destroyAttempt env).stderr).2.2
    simp [List.mem_append, ha3, hf]
  · simp [List.mem_append, tfDestroy_mem_destroyAttempt env]
  · intro r h0 hrc
    have hatt : destroyAttempt env = ⟨r.returncode, r.stdout, r.stderr, [], [Ev.tfDestroy]⟩ := by
      unfold destroyAttempt
      rw [h0]
      dsimp only
      rw [if_neg (fun hc => hc.1 hrc)]
    simp only [hatt, hrc]
    cases hr : env.rmtree_result <;> simp [finalizeDestroy, hr]

/-- An unparseable-state environment whose destroy succeeds; witnesses C9. -/
def parseErrorEnv : DestroyEnv where
  workspace_exists := true
  state_file_exists := true
  state_file_size := 7
  credentials_result := .ok ()
  aws_clients := none
  state_parse := .error "Expecting value: line 1 column 1 (char 0)"
  first_destroy := .completed ⟨0, "Destroy complete! Resources: 3 destroyed.", ""⟩
  refresh_run := .timedOut
  second_destroy := .timedOut
  rmtree_result := .ok ()

theorem destroy_tolerates_malformed_state_witness :
    ("Pre-cleanup error: Expecting value: line 1 column 1 (char 0)") ∈
      (destroy_terraform_with_cleanup parseErrorEnv).1.cleanup_logs ∧
    (destroy_terraform_with_cleanup parseErrorEnv).1.status = "success" :=
  ⟨(destroy_tolerates_malformed_state parseErrorEnv _ rfl rfl (by decide) rfl).1,
   (destroy_tolerates_malformed_state parseErrorEnv _ rfl rfl (by decide) rfl).2.2.2.2.2
     ⟨0, "Destroy complete! Resources: 3 destroyed.", ""⟩ rfl rfl⟩

theorem finalizeDestroy_status_error {env : DestroyEnv} {rc : Int} {se : String}
    (h : rc ≠ 0) : (finalizeDestroy env rc se).status = "error" := by
  unfold finalizeDestroy; rw [if_neg h]

theorem finalizeDestroy_status_success {env : DestroyEnv} {rc : Int} {se : String}
    (h : rc = 0) : (finalizeDestroy env rc se).status = "success" := by
  unfold finalizeDestroy; rw [if_pos h]; cases env.rmtree_result <;> rfl

/-- When the pipeline reaches the engine, the destroy result is the
composition of the credential, pre-cleanup, attempt and finalize phases. -/
theorem destroy_reaches_engine_eq (env : DestroyEnv)
    (hw : env.workspace_exists = true) (hs : env.state_file_exists = true)
    (hsz : env.state_file_size ≠ 0) :
    destroy_terraform_with_cleanup env =
      (⟨(finalizeDestroy env (destroyAttempt env).return_code (destroyAttempt env).stderr).status,
        (destroyAttempt env).stdout, (destroyAttempt env).stderr,
        credentialLogs env ++ (preCleanup env).logs ++ (destroyAttempt env).logs ++
          (finalizeDestroy env (destroyAttempt env).return_code (destroyAttempt env).stderr).logs⟩,
       [Ev.getCredentials] ++ (preCleanup env).events ++ (destroyAttempt env).events ++
         (finalizeDestroy env (destroyAttempt env).return_code (destroyAttempt env).stderr).events) := by
  unfold destroy_terraform_with_cleanup
  rw [hw, hs]
  simp [hsz]

/-! ### C6 — teardown only on final success; failures leave the Workspace -/

/-- C6: when destroy reaches the engine, workspace removal is attempted
exactly when the result status is "success" (final exit code zero); an
`shutil.rmtree` failure is logged as a warning but the status stays
"success"; on a failing final attempt the status is "error", the captured
(or timeout-synthesized) stderr is surfaced, and no removal is attempted. -/
theorem destroy_teardown_frame (env : DestroyEnv)
    (hw : env.workspace_exists = true) (hs : env.state_file_exists = true)
    (hsz : env.state_file_size ≠ 0) :
    (Ev.rmtreeWorkspace ∈ (destroy_terraform_with_cleanup env).2 ↔
      (destroy_terraform_with_cleanup env).1.status = "success") ∧
    (∀ e, env.rmtree_result = Except.error e →
      (destroy_terraform_with_cleanup env).1.status = "success" →
      ("Warning: Workspace cleanup failed - " ++ e) ∈
        (destroy_terraform_with_cleanup env).1.cleanup_logs) ∧
    ((destroy_terraform_with_cleanup env).1.status = "error" →
      Ev.rmtreeWorkspace ∉ (destroy_terraform_with_cleanup env).2) ∧
    (∀ r, env.first_destroy = RunOutcome.completed r → r.returncode ≠ 0 →
      containsSub "BucketNotEmpty" r.stderr = true →
      (destroy_terraform_with_cleanup env).1.status = "error" ∧
      (destroy_terraform_with_cleanup env).1.stderr = r.stderr) ∧
    (∀ r rr r2, env.first_destroy = RunOutcome.completed r → r.returncode ≠ 0 →
      containsSub "BucketNotEmpty" r.stderr = false →
      env.refresh_run = RunOutcome.completed rr →
      env.second_destroy = RunOutcome.completed r2 → r2.returncode ≠ 0 →
      (destroy_terraform_with_cleanup env).1.status = "error" ∧
      (destroy_terraform_with_cleanup env).1.stderr = r2.stderr) ∧
    (env.first_destroy = RunOutcome.timedOut →
      (destroy_terraform_with_cleanup env).1.status = "error" ∧
      (destroy_terraform_with_cleanup env).1.stderr =
        "Terraform destroy timed out after 10 minutes") := by
  have hmain := destroy_reaches_engine_eq env hw hs hsz
  have hnm2 := rmtree_not_mem_preCleanup env
  have hnm3 := rmtree_not_mem_destroyAttempt env
  refine ⟨?_, ?_, ?_, ?_, ?_, ?_⟩
  · rw [hmain]
    dsimp only
    rcases finalizeDestroy_cases env (destroyAttempt env).return_code
      (destroyAttempt env).stderr with ⟨hrc, hst, hev⟩ | ⟨hrc, hst, hev⟩
    · constructor
      · intro _; exact hst
      · intro _; simp [List.mem_append, hev]
    · constructor
      · intro hm
        exfalso
        simp [List.mem_append, hev, hnm2, hnm3] at hm
      · intro hsucc
        rw [hst] at hsucc
        exact absurd hsucc (by decide)
  · intro e hrm hsucc
    rw [hmain] at hsucc ⊢
    dsimp only at hsucc ⊢
    rcases finalizeDestroy_cases env (destroyAttempt env).return_code
      (destroyAttempt env).stderr with ⟨hrc, _, _⟩ | ⟨_, hst, _⟩
    · have hlogs : (finalizeDestroy env (destroyAttempt env).return_code
          (destroyAttempt env).stderr).logs =
          ["SUCCESS: All infrastructure destroyed",
           "Warning: Workspace cleanup failed - " ++ e] := by
        unfold finalizeDestroy
        rw [if_pos hrc, hrm]
      simp [List.mem_append, hlogs]
    · rw [hst] at hsucc
      exact absurd hsucc (by decide)
  · intro herr
    rw [hmain] at herr ⊢
    dsimp only at herr ⊢
    rcases finalizeDestroy_cases env (destroyAttempt env).return_code
      (destroyAttempt env).stderr with ⟨_, hst, _⟩ | ⟨_, _, hev⟩
    · rw [hst] at herr
      exact absurd herr (by decide)
    · simp [List.mem_append, hev, hnm2, hnm3]
  · intro r h0 hrc hm
    have hatt : destroyAttempt env = ⟨r.returncode, r.stdout, r.stderr, [], [Ev.tfDestroy]⟩ := by
      unfold destroyAttempt
      rw [h0]
      dsimp only
      rw [if_neg (fun hc => by rw [hm] at hc; exact absurd hc.2 (by decide))]
    rw [hmain, hatt]
    exact ⟨finalizeDestroy_status_error hrc, rfl⟩
  · intro r rr r2 h0 hrc hm hrr h2 hrc2
    have hatt : destroyAttempt env =
        ⟨r2.returncode, r2.stdout, r2.stderr, ["Performed retry with refresh"],
         [Ev.tfDestroy, Ev.tfRefresh, Ev.tfDestroy]⟩ := by
      unfold destroyAttempt
      rw [h0]
      dsimp only
      rw [if_pos ⟨hrc, hm⟩, hrr]
      dsimp only
      rw [h2]
    rw [hmain, hatt]
    exact ⟨finalizeDestroy_status_error hrc2, rfl⟩
  · intro h0
    have hatt : destroyAttempt env = timeoutAttempt [Ev.tfDestroy] := by
      unfold destroyAttempt; rw [h0]
    rw [hmain, hatt]
    exact ⟨finalizeDestroy_status_error (by norm_num [timeoutAttempt]), rfl⟩

/-- An environment whose final (second) destroy attempt fails; witnesses C6. -/
def retryFailEnv : DestroyEnv where
  workspace_exists := true
  state_file_exists := true
  state_file_size := 9
  credentials_result := .ok ()
  aws_clients := none
  state_parse := .error "Expecting value"
  first_destroy := .completed ⟨1, "", "Error: something transient"⟩
  refresh_run := .completed ⟨0, "", ""⟩
  second_destroy := .completed ⟨1, "", "Error: still failing"⟩
  rmtree_result := .ok ()

theorem destroy_teardown_frame_witness :
    (destroy_terraform_with_cleanup retryFailEnv).1.status = "error" ∧
    (destroy_terraform_with_cleanup retryFailEnv).1.stderr = "Error: still failing" :=
  (destroy_teardown_frame retryFailEnv rfl rfl (by decide)).2.2.2.2.1
    ⟨1, "", "Error: something transient"⟩ ⟨0, "", ""⟩ ⟨1, "", "Error: still failing"⟩
    rfl (by decide) (by decide) rfl rfl (by decide)

theorem countEv_finalize_zero (env : DestroyEnv) (rc : Int) (se : String) :
    countEv Ev.tfDestroy (finalizeDestroy env rc se).events = 0 ∧
    countEv Ev.tfRefresh (finalizeDestroy env rc se).events = 0 := by
  rcases finalizeDestroy_cases env rc se with ⟨_, _, h⟩ | ⟨_, _, h⟩ <;> rw [h] <;>
    exact ⟨by decide, by decide⟩

/-! ### C2 — retry policy after a failed first destroy attempt -/

/-- An environment where the first destroy fails without the bucket marker
and the refresh call itself times out; used to refute C2 as stated. -/
def refreshTimeoutEnv : DestroyEnv where
  workspace_exists := true
  state_file_exists := true
  state_file_size := 3
  credentials_result := .ok ()
  aws_clients := none
  state_parse := .error "Expecting value"
  first_destroy := .completed ⟨1, "", "Error: error acquiring the state lock"⟩
  refresh_run := .timedOut
  second_destroy := .completed ⟨0, "", ""⟩
  rmtree_result := .ok ()

/-- C2 counterexample: the first destroy completes non-zero with stderr not
containing "BucketNotEmpty", the refresh call is performed but raises
`TimeoutExpired`, and then NO second destroy attempt is performed (one
`tfDestroy` event in total), contradicting "exactly one second destroy
attempt is performed and the second attempt's result is final". -/
theorem destroy_retry_counterexample :
    refreshTimeoutEnv.first_destroy =
      RunOutcome.completed ⟨1, "", "Error: error acquiring the state lock"⟩ ∧
    containsSub "BucketNotEmpty" "Error: error acquiring the state lock" = false ∧
    countEv Ev.tfRefresh (destroy_terraform_with_cleanup refreshTimeoutEnv).2 = 1 ∧
    countEv Ev.tfDestroy (destroy_terraform_with_cleanup refreshTimeoutEnv).2 = 1 ∧
    (destroy_terraform_with_cleanup refreshTimeoutEnv).1.status = "error" :=
  ⟨rfl, by decide, by decide, by decide, by decide⟩

/-- C2 (amended): after a first destroy attempt completing with non-zero exit
code — if stderr lacks the bucket-not-empty marker, exactly one refresh call
is performed; when that refresh call itself completes, exactly one second
destroy attempt is performed and its result is final; when the refresh call
times out or raises, no second destroy attempt is performed and the outcome
is a final error.  If stderr contains the marker, zero refresh calls and
zero further destroy attempts are performed and the outcome is a final
failure with the first attempt's stderr. -/
theorem destroy_retry_policy (env : DestroyEnv) (r : RunCompleted)
    (hw : env.workspace_exists = true) (hs : env.state_file_exists = true)
    (hsz : env.state_file_size ≠ 0) (h0 : env.first_destroy = RunOutcome.completed r)
    (hrc : r.returncode ≠ 0) :
    (containsSub "BucketNotEmpty" r.stderr = false →
      countEv Ev.tfRefresh (destroy_terraform_with_cleanup env).2 = 1 ∧
      (∀ rr, env.refresh_run = RunOutcome.completed rr →
        countEv Ev.tfDestroy (destroy_terraform_with_cleanup env).2 = 2 ∧
        (∀ r2, env.second_destroy = RunOutcome.completed r2 →
          (destroy_terraform_with_cleanup env).1.stdout = r2.stdout ∧
          (destroy_terraform_with_cleanup env).1.stderr = r2.stderr ∧
          ((destroy_terraform_with_cleanup env).1.status = "success" ↔ r2.returncode = 0))) ∧
      ((env.refresh_run = RunOutcome.timedOut ∨ ∃ m, env.refresh_run = RunOutcome.exn m) →
        countEv Ev.tfDestroy (destroy_terraform_with_cleanup env).2 = 1 ∧
        (destroy_terraform_with_cleanup env).1.status = "error")) ∧
    (containsSub "BucketNotEmpty" r.stderr = true →
      countEv Ev.tfRefresh (destroy_terraform_with_cleanup env).2 = 0 ∧
      countEv Ev.tfDestroy (destroy_terraform_with_cleanup env).2 = 1 ∧
      (destroy_terraform_with_cleanup env).1.status = "error" ∧
      (destroy_terraform_with_cleanup env).1.stderr = r.stderr) := by
  have hmain := destroy_reaches_engine_eq env hw hs hsz
  have hpreD := countEv_eq_zero_of_not_mem (tfDestroy_not_mem_preCleanup env)
  have hpreR := countEv_eq_zero_of_not_mem (tfRefresh_not_mem_preCleanup env)
  have hfin := countEv_finalize_zero env (destroyAttempt env).return_code
    (destroyAttempt env).stderr
  constructor
  · intro hm
    have hcond : r.returncode ≠ 0 ∧ containsSub "BucketNotEmpty" r.stderr = false :=
      ⟨hrc, hm⟩
    refine ⟨?_, ?_, ?_⟩
    · have hev : countEv Ev.tfRefresh (destroyAttempt env).events = 1 := by
        unfold destroyAttempt
        rw [h0]
        dsimp only
        rw [if_pos hcond]
        cases env.refresh_run with
        | timedOut => simp [timeoutAttempt, countEv]
        | exn m => simp [exnAttempt, countEv]
        | completed rr =>
          cases env.second_destroy <;> simp [timeoutAttempt, exnAttempt, countEv]
      rw [hmain]
      dsimp only
      simp [countEv_append, hpreR, hev, hfin.2, countEv]
    · intro rr hrr
      have hevq : (destroyAttempt env).events = [Ev.tfDestroy, Ev.tfRefresh, Ev.tfDestroy] := by
        unfold destroyAttempt
        rw [h0]
        dsimp only
        rw [if_pos hcond, hrr]
        dsimp only
        cases env.second_destroy <;> rfl
      constructor
      · rw [hmain]
        dsimp only
        rw [countEv_append, countEv_append, countEv_append, hpreD, hfin.1, hevq]
        decide
      · intro r2 h2
        have hatt : destroyAttempt env =
            ⟨r2.returncode, r2.stdout, r2.stderr, ["Performed retry with refresh"],
             [Ev.tfDestroy, Ev.tfRefresh, Ev.tfDestroy]⟩ := by
          unfold destroyAttempt
          rw [h0]
          dsimp only
          rw [if_pos hcond, hrr]
          dsimp only
          rw [h2]
        rw [hmain, hatt]
        refine ⟨rfl, rfl, ?_⟩
        dsimp only
        constructor
        · intro hsucc
          by_contra hne
          rw [finalizeDestroy_status_error hne] at hsucc
          exact absurd hsucc (by decide)
        · intro hz
          exact finalizeDestroy_status_success hz
    · intro hraise
      have hattE : (destroyAttempt env).events = [Ev.tfDestroy, Ev.tfRefresh] ∧
          (destroyAttempt env).return_code = 1 := by
        unfold destroyAttempt
        rw [h0]
        dsimp only
        rw [if_pos hcond]
        rcases hraise with h | ⟨m, h⟩ <;> rw [h] <;> exact ⟨rfl, rfl⟩
      constructor
      · rw [hmain]
        dsimp only
        rw [countEv_append, countEv_append, countEv_append, hpreD, hattE.1, hfin.1]
        decide
      · rw [hmain]
        dsimp only
        exact finalizeDestroy_status_error (by rw [hattE.2]; norm_num)
  · intro hm
    have hatt : destroyAttempt env = ⟨r.returncode, r.stdout, r.stderr, [], [Ev.tfDestroy]⟩ := by
      unfold destroyAttempt
      rw [h0]
      dsimp only
      rw [if_neg (fun hc => by rw [hm] at hc; exact absurd hc.2 (by decide))]
    rw [hmain, hatt]
    dsimp only
    rw [hatt] at hfin
    refine ⟨?_, ?_, ?_, rfl⟩
    · rw [countEv_append, countEv_append, countEv_append, hpreR]
      simp [countEv, hfin.2]
    · rw [countEv_append, countEv_append, countEv_append, hpreD]
      simp [countEv, hfin.1]
    · exact finalizeDestroy_status_error hrc

/-- A marker-failure environment used to witness the amended C2. -/
def bucketMarkerEnv : DestroyEnv where
  workspace_exists := true
  state_file_exists := true
  state_file_size := 3
  credentials_result := .ok ()
  aws_clients := none
  state_parse := .error "Expecting value"
  first_destroy := .completed ⟨1, "", "Error: BucketNotEmpty: the bucket you tried to delete is not empty"⟩
  refresh_run := .completed ⟨0, "", ""⟩
  second_destroy := .completed ⟨0, "", ""⟩
  rmtree_result := .ok ()

theorem destroy_retry_policy_witness :
    countEv Ev.tfRefresh (destroy_terraform_with_cleanup bucketMarkerEnv).2 = 0 ∧
    countEv Ev.tfDestroy (destroy_terraform_with_cleanup bucketMarkerEnv).2 = 1 ∧
    (destroy_terraform_with_cleanup bucketMarkerEnv).1.status = "error" ∧
    (destroy_terraform_with_cleanup bucketMarkerEnv).1.stderr =
      "Error: BucketNotEmpty: the bucket you tried to delete is not empty" :=
  (destroy_retry_policy bucketMarkerEnv
    ⟨1, "", "Error: BucketNotEmpty: the bucket you tried to delete is not empty"⟩
    rfl rfl (by decide) rfl (by decide)).2 (by decide)

/-! ### C5 — cleanup strategies never raise and process every resource -/

theorem one_le_cleanup_s3_one (c : S3Client) (b : S3BucketRec) :
    1 ≤ (cleanup_s3_bucket_one c b).length := by
  unfold cleanup_s3_bucket_one
  cases h : c.head_bucket (pyStrOf b.name) with
  | noSuchBucket => simp [h]
  | accessError e => simp [h]
  | ok =>
    simp only [h, List.length_append, List.length_cons, List.length_nil]
    omega

theorem cleanup_s3_buckets_append (c : S3Client) (l1 l2 : List S3BucketRec) :
    cleanup_s3_buckets c (l1 ++ l2) =
      cleanup_s3_buckets c l1 ++ cleanup_s3_buckets c l2 := by
  induction l1 with
  | nil => rfl
  | cons b bs ih => simp [cleanup_s3_buckets, ih]

theorem length_le_cleanup_s3 (c : S3Client) (l : List S3BucketRec) :
    l.length ≤ (cleanup_s3_buckets c l).length := by
  induction l with
  | nil => simp [cleanup_s3_buckets]
  | cons b bs ih =>
    have h1 := one_le_cleanup_s3_one c b
    simp only [cleanup_s3_buckets, List.length_append, List.length_cons]
    omega

theorem one_le_cleanup_lambda_one (c : LambdaClient) (f : LambdaRec) :
    1 ≤ (cleanup_lambda_one c f).length := by
  unfold cleanup_lambda_one
  cases h : c.list_event_source_mappings (pyStrOf f.name) <;> simp [h]

theorem cleanup_lambda_append (c : LambdaClient) (l1 l2 : List LambdaRec) :
    cleanup_lambda_functions c (l1 ++ l2) =
      cleanup_lambda_functions c l1 ++ cleanup_lambda_functions c l2 := by
  induction l1 with
  | nil => rfl
  | cons f fs ih => simp [cleanup_lambda_functions, ih]

theorem length_le_cleanup_lambda (c : LambdaClient) (l : List LambdaRec) :
    l.length ≤ (cleanup_lambda_functions c l).length := by
  induction l with
  | nil => simp [cleanup_lambda_functions]
  | cons f fs ih =>
    have h1 := one_le_cleanup_lambda_one c f
    simp only [cleanup_lambda_functions, List.length_append, List.length_cons]
    omega

theorem one_le_cleanup_api_one (v1c : ApiGatewayClient) (v2c : ApiGatewayV2Client)
    (g : ApiGatewayRec) : 1 ≤ (cleanup_api_gateway_one v1c v2c g).length := by
  unfold cleanup_api_gateway_one
  by_cases h : g.gwtype == "v1"
  · rw [if_pos h]
    cases hg : v1c.get_rest_api (pyStrOf g.id) <;> simp [hg]
  · rw [if_neg h]
    cases hg : v2c.get_api (pyStrOf g.id) <;> simp [hg]

theorem cleanup_api_append (v1c : ApiGatewayClient) (v2c : ApiGatewayV2Client)
    (l1 l2 : List ApiGatewayRec) :
    cleanup_api_gateways v1c v2c (l1 ++ l2) =
      cleanup_api_gateways v1c v2c l1 ++ cleanup_api_gateways v1c v2c l2 := by
  induction l1 with
  | nil => rfl
  | cons g gs ih => simp [cleanup_api_gateways, ih]

theorem length_le_cleanup_api (v1c : ApiGatewayClient) (v2c : ApiGatewayV2Client)
    (l : List ApiGatewayRec) :
    l.length ≤ (cleanup_api_gateways v1c v2c l).length := by
  induction l with
  | nil => simp [cleanup_api_gateways]
  | cons g gs ih =>
    have h1 := one_le_cleanup_api_one v1c v2c g
    simp only [cleanup_api_gateways, List.length_append, List.length_cons]
    omega

/-- C5: each cleanup strategy (object-storage, serverless-function,
API-gateway) is a total function of the client oracle — whatever outcomes,
including raises, the client operations produce, it returns a cleanup log
rather than propagating an exception; each resource record contributes at
least one log entry (failures degrade to entries), and the batch splits into
the independent per-resource logs, so processing always continues with the
remaining resources. -/
theorem cleanup_strategies_never_raise (s3c : S3Client) (lc : LambdaClient)
    (v1c : ApiGatewayClient) (v2c : ApiGatewayV2Client) :
    (∀ l1 l2 : List S3BucketRec, cleanup_s3_buckets s3c (l1 ++ l2) =
        cleanup_s3_buckets s3c l1 ++ cleanup_s3_buckets s3c l2) ∧
    (∀ l : List S3BucketRec, l.length ≤ (cleanup_s3_buckets s3c l).length) ∧
    (∀ l1 l2 : List LambdaRec, cleanup_lambda_functions lc (l1 ++ l2) =
        cleanup_lambda_functions lc l1 ++ cleanup_lambda_functions lc l2) ∧
    (∀ l : List LambdaRec, l.length ≤ (cleanup_lambda_functions lc l).length) ∧
    (∀ l1 l2 : List ApiGatewayRec, cleanup_api_gateways v1c v2c (l1 ++ l2) =
        cleanup_api_gateways v1c v2c l1 ++ cleanup_api_gateways v1c v2c l2) ∧
    (∀ l : List ApiGatewayRec, l.length ≤ (cleanup_api_gateways v1c v2c l).length) :=
  ⟨cleanup_s3_buckets_append s3c, length_le_cleanup_s3 s3c,
   cleanup_lambda_append lc, length_le_cleanup_lambda lc,
   cleanup_api_append v1c v2c, length_le_cleanup_api v1c v2c⟩

/-! ### C3 — credential cache correctness and safety margin -/

/-- Resolution on a cache miss falls through to the exchange. -/
theorem get_credentials_miss (env : StsEnv) (now : Int) (cache : CredCache)
    (u p : String) (hc : cache (u ++ "-" ++ p) = none) :
    get_credentials_for_user env now cache u p =
      assumeRoleAndCache env cache (u ++ "-" ++ p) := by
  unfold get_credentials_for_user
  dsimp only
  rw [hc]

/-- Resolution on a valid cache hit returns the cached set, no exchange. -/
theorem get_credentials_hit (env : StsEnv) (now : Int) (cache : CredCache)
    (u p : String) (entry : CacheEntry) (hc : cache (u ++ "-" ++ p) = some entry)
    (hv : entry.expiration > now) :
    get_credentials_for_user env now cache u p =
      (Except.ok entry.credentials, cache, 0) := by
  unfold get_credentials_for_user
  dsimp only
  rw [hc]
  dsimp only
  rw [if_pos hv]

/-- Resolution on an expired cache hit evicts the entry, then exchanges. -/
theorem get_credentials_expired (env : StsEnv) (now : Int) (cache : CredCache)
    (u p : String) (entry : CacheEntry) (hc : cache (u ++ "-" ++ p) = some entry)
    (hv : ¬entry.expiration > now) :
    get_credentials_for_user env now cache u p =
      assumeRoleAndCache env
        (fun k => if k = u ++ "-" ++ p then none else cache k) (u ++ "-" ++ p) := by
  unfold get_credentials_for_user
  dsimp only
  rw [hc]
  dsimp only
  rw [if_neg hv]

/-- C3: with delegation configured and a working exchange — a cold-cache
resolve performs exactly one exchange and stores the exchange-reported
expiration minus the 10-minute margin; a second resolve before that stored
instant returns the identical credential set with zero exchanges and an
unchanged cache; a resolve at or after it performs exactly one new exchange;
and in general credentials are returned from the cache (zero exchanges) only
while the stored expiration is strictly in the future. -/
theorem credential_cache_correct (env : StsEnv) (rc : RespCreds) (cache : CredCache)
    (u p : String) (now1 now2 : Int)
    (hra : envTruthy env.role_arn = true) (hei : envTruthy env.external_id = true)
    (hexc : env.assume_role = Except.ok ⟨some rc⟩)
    (hcold : cache (u ++ "-" ++ p) = none) :
    (get_credentials_for_user env now1 cache u p).2.2 = 1 ∧
    (get_credentials_for_user env now1 cache u p).1 =
      Except.ok ⟨rc.access_key_id, rc.secret_access_key, rc.session_token⟩ ∧
    (get_credentials_for_user env now1 cache u p).2.1 (u ++ "-" ++ p) =
      some ⟨⟨rc.access_key_id, rc.secret_access_key, rc.session_token⟩,
            rc.expiration - 10 * 60⟩ ∧
    (rc.expiration - 10 * 60 > now2 →
      get_credentials_for_user env now2
          (get_credentials_for_user env now1 cache u p).2.1 u p =
        (Except.ok ⟨rc.access_key_id, rc.secret_access_key, rc.session_token⟩,
         (get_credentials_for_user env now1 cache u p).2.1, 0)) ∧
    (¬rc.expiration - 10 * 60 > now2 →
      (get_credentials_for_user env now2
          (get_credentials_for_user env now1 cache u p).2.1 u p).2.2 = 1) ∧
    (∀ (cache' : CredCache) (now' : Int) (c : CredSet),
      (get_credentials_for_user env now' cache' u p).2.2 = 0 →
      (get_credentials_for_user env now' cache' u p).1 = Except.ok c →
      ∃ entry, cache' (u ++ "-" ++ p) = some entry ∧ entry.expiration > now' ∧
        entry.credentials = c) := by
  have hfresh : ∀ (c0 : CredCache),
      assumeRoleAndCache env c0 (u ++ "-" ++ p) =
        (Except.ok ⟨rc.access_key_id, rc.secret_access_key, rc.session_token⟩,
         fun k => if k = u ++ "-" ++ p then
           some ⟨⟨rc.access_key_id, rc.secret_access_key, rc.session_token⟩,
                 rc.expiration - 10 * 60⟩
           else c0 k,
         1) := by
    intro c0
    unfold assumeRoleAndCache
    rw [hra, hei]
    simp [hexc]
  have h1 : get_credentials_for_user env now1 cache u p =
      (Except.ok ⟨rc.access_key_id, rc.secret_access_key, rc.session_token⟩,
       fun k => if k = u ++ "-" ++ p then
         some ⟨⟨rc.access_key_id, rc.secret_access_key, rc.session_token⟩,
               rc.expiration - 10 * 60⟩
         else cache k,
       1) := by
    rw [get_credentials_miss env now1 cache u p hcold, hfresh]
  have hstored : (get_credentials_for_user env now1 cache u p).2.1 (u ++ "-" ++ p) =
      some ⟨⟨rc.access_key_id, rc.secret_access_key, rc.session_token⟩,
            rc.expiration - 10 * 60⟩ := by
    rw [h1]; simp
  refine ⟨by rw [h1], by rw [h1], hstored, ?_, ?_, ?_⟩
  · intro hvalid
    exact get_credentials_hit env now2 _ u p _ hstored hvalid
  · intro hexp
    rw [get_credentials_expired env now2 _ u p _ hstored hexp, hfresh]
  · intro cache' now' c h0 hok
    cases hc : cache' (u ++ "-" ++ p) with
    | none =>
      rw [get_credentials_miss env now' cache' u p hc, hfresh] at h0
      simp at h0
    | some entry =>
      by_cases hv : entry.expiration > now'
      · rw [get_credentials_hit env now' cache' u p entry hc hv] at hok
        simp at hok
        exact ⟨entry, rfl, hv, hok⟩
      · rw [get_credentials_expired env now' cache' u p entry hc hv, hfresh] at h0
        simp at h0

/-- A working delegation environment used in cache witnesses. -/
def stsEnvOk : StsEnv where
  role_arn := some "arn:aws:iam::123456789012:role/chart-app-deployer"
  external_id := some "ext-123"
  assume_role := .ok ⟨some ⟨"AKIDEXAMPLE", "wJalrSECRET", "FwoGZXToken", 10000⟩⟩

theorem credential_cache_correct_witness :
    (get_credentials_for_user stsEnvOk 0 emptyCache "u" "p").2.2 = 1 ∧
    (get_credentials_for_user stsEnvOk 0 emptyCache "u" "p").1 =
      Except.ok ⟨"AKIDEXAMPLE", "wJalrSECRET", "FwoGZXToken"⟩ :=
  ⟨(credential_cache_correct stsEnvOk ⟨"AKIDEXAMPLE", "wJalrSECRET", "FwoGZXToken", 10000⟩
      emptyCache "u" "p" 0 5 rfl rfl rfl rfl).1,
   (credential_cache_correct stsEnvOk ⟨"AKIDEXAMPLE", "wJalrSECRET", "FwoGZXToken", 10000⟩
      emptyCache "u" "p" 0 5 rfl rfl rfl rfl).2.1⟩

/-! ### C7 — the cache key is the concatenated string, not the pair -/

/-- The cache state after resolving for the pair `("a", "b-c")`. -/
def collideCache : CredCache :=
  (get_credentials_for_user stsEnvOk 0 emptyCache "a" "b-c").2.1

/-- C7 counterexample: the pairs `("a", "b-c")` and `("a-b", "c")` are
distinct, yet after resolving for the first pair, resolving for the second
performs zero exchanges and returns the first pair's cached credential set —
it reads the other pair's cache entry, because both pairs share the
concatenated key `"a-b-c"`.  On an empty cache the same call would perform
one exchange. -/
theorem credential_cache_collision_counterexample :
    (("a", "b-c") : String × String) ≠ ("a-b", "c") ∧
    (get_credentials_for_user stsEnvOk 10 collideCache "a-b" "c").2.2 = 0 ∧
    (get_credentials_for_user stsEnvOk 10 collideCache "a-b" "c").1 =
      Except.ok ⟨"AKIDEXAMPLE", "wJalrSECRET", "FwoGZXToken"⟩ ∧
    (get_credentials_for_user stsEnvOk 10 emptyCache "a-b" "c").2.2 = 1 :=
  ⟨by decide, by decide, by rfl, by decide⟩

theorem assumeRoleAndCache_preserves (env : StsEnv) (c : CredCache) (key : String) :
    ∀ k, k ≠ key → (assumeRoleAndCache env c key).2.1 k = c k := by
  intro k hk
  unfold assumeRoleAndCache
  split
  · rfl
  · split
    · rfl
    · cases env.assume_role with
      | error e => rfl
      | ok resp =>
        obtain ⟨cr⟩ := resp
        cases cr with
        | none => rfl
        | some rcr => simp [hk]

theorem assumeRoleAndCache_congr (env : StsEnv) (c1 c2 : CredCache) (key : String) :
    ((assumeRoleAndCache env c1 key).1 = (assumeRoleAndCache env c2 key).1) ∧
    ((assumeRoleAndCache env c1 key).2.2 = (assumeRoleAndCache env c2 key).2.2) ∧
    ((assumeRoleAndCache env c1 key).2.1 key = (assumeRoleAndCache env c2 key).2.1 key ∨
     ((assumeRoleAndCache env c1 key).2.1 key = c1 key ∧
      (assumeRoleAndCache env c2 key).2.1 key = c2 key)) := by
  unfold assumeRoleAndCache
  split
  · exact ⟨rfl, rfl, Or.inr ⟨rfl, rfl⟩⟩
  · split
    · exact ⟨rfl, rfl, Or.inr ⟨rfl, rfl⟩⟩
    · cases env.assume_role with
      | error e => exact ⟨rfl, rfl, Or.inr ⟨rfl, rfl⟩⟩
      | ok resp =>
        obtain ⟨cr⟩ := resp
        cases cr with
        | none => exact ⟨rfl, rfl, Or.inr ⟨rfl, rfl⟩⟩
        | some rcr => exact ⟨rfl, rfl, Or.inl (by simp)⟩

/-- C7 (amended): the cache is keyed by the concatenated string
`user_id + "-" + project_id`.  Resolution for `(u, p)` reads only that key —
two caches agreeing there yield the same result, the same exchange count and
the same own-key entry — and writes only that key (every other key keeps its
prior value).  Hence two pairs interfere exactly when their concatenated
keys coincide, which does happen for distinct pairs (see the
counterexample). -/
theorem credential_cache_key_isolation (env : StsEnv) (now : Int)
    (cache cache' : CredCache) (u p : String)
    (hagree : cache (u ++ "-" ++ p) = cache' (u ++ "-" ++ p)) :
    (get_credentials_for_user env now cache u p).1 =
      (get_credentials_for_user env now cache' u p).1 ∧
    (get_credentials_for_user env now cache u p).2.2 =
      (get_credentials_for_user env now cache' u p).2.2 ∧
    (get_credentials_for_user env now cache u p).2.1 (u ++ "-" ++ p) =
      (get_credentials_for_user env now cache' u p).2.1 (u ++ "-" ++ p) ∧
    (∀ k, k ≠ u ++ "-" ++ p →
      (get_credentials_for_user env now cache u p).2.1 k = cache k) := by
  cases hc : cache (u ++ "-" ++ p) with
  | none =>
    have hc' : cache' (u ++ "-" ++ p) = none := by rw [← hagree]; exact hc
    rw [get_credentials_miss env now cache u p hc,
        get_credentials_miss env now cache' u p hc']
    rcases assumeRoleAndCache_congr env cache cache' (u ++ "-" ++ p) with
      ⟨e1, e2, e3 | ⟨e3a, e3b⟩⟩
    · exact ⟨e1, e2, e3, assumeRoleAndCache_preserves env cache (u ++ "-" ++ p)⟩
    · refine ⟨e1, e2, ?_, assumeRoleAndCache_preserves env cache (u ++ "-" ++ p)⟩
      rw [e3a, e3b, hc, hc']
  | some entry =>
    have hc' : cache' (u ++ "-" ++ p) = some entry := by rw [← hagree]; exact hc
    by_cases hv : entry.expiration > now
    · rw [get_credentials_hit env now cache u p entry hc hv,
          get_credentials_hit env now cache' u p entry hc' hv]
      exact ⟨rfl, rfl, hagree, fun k _ => rfl⟩
    · rw [get_credentials_expired env now cache u p entry hc hv,
          get_credentials_expired env now cache' u p entry hc' hv]
      have hpres : ∀ k, k ≠ u ++ "-" ++ p →
          (assumeRoleAndCache env
            (fun k => if k = u ++ "-" ++ p then none else cache k)
            (u ++ "-" ++ p)).2.1 k = cache k := by
        intro k hk
        rw [assumeRoleAndCache_preserves env _ _ k hk]
        simp [hk]
      rcases assumeRoleAndCache_congr env
          (fun k => if k = u ++ "-" ++ p then none else cache k)
          (fun k => if k = u ++ "-" ++ p then none else cache' k) (u ++ "-" ++ p) with
        ⟨e1, e2, e3 | ⟨e3a, e3b⟩⟩
      · exact ⟨e1, e2, e3, hpres⟩
      · refine ⟨e1, e2, ?_, hpres⟩
        rw [e3a, e3b]
        simp

theorem credential_cache_key_isolation_witness :
    (get_credentials_for_user stsEnvOk 0 emptyCache "x" "y").1 =
      (get_credentials_for_user stsEnvOk 0 collideCache "x" "y").1 :=
  (credential_cache_key_isolation stsEnvOk 0 emptyCache collideCache "x" "y" (by decide)).1

/-! ### C10 — deploy deletes a zero-length state file before engine init -/

/-- Index of the first occurrence of an event in a trace (trace length when
absent). -/
def idxOfEv (e : Ev) : List Ev → Nat
  | [] => 0
  | x :: xs => if x = e then 0 else idxOfEv e xs + 1

/-- C10: on any deploy that reaches engine init, a state file existing with
size exactly zero is deleted, and the deletion precedes the init call, so the
engine observes a missing rather than empty state file; a non-empty (or
absent) state file is never deleted by this step. -/
theorem deploy_removes_empty_state (env : DeployEnv) :
    ((env.state_file_exists = true ∧ env.state_file_size = 0 ∧
        Ev.tfInit ∈ (deploy_terraform env).2) →
      Ev.removeEmptyState ∈ (deploy_terraform env).2 ∧
      idxOfEv Ev.removeEmptyState (deploy_terraform env).2 <
        idxOfEv Ev.tfInit (deploy_terraform env).2) ∧
    (env.state_file_size ≠ 0 → Ev.removeEmptyState ∉ (deploy_terraform env).2) ∧
    (env.state_file_exists = false → Ev.removeEmptyState ∉ (deploy_terraform env).2) := by
  cases hcred : env.credentials_result with
  | error e =>
    have hevs : (deploy_terraform env).2 = [Ev.getCredentials] := by
      unfold deploy_terraform
      rw [hcred]
    rw [hevs]
    refine ⟨?_, ?_, ?_⟩
    · rintro ⟨_, _, hinit⟩
      simp at hinit
    · intro _; decide
    · intro _; decide
  | ok uu =>
    have hevs : (deploy_terraform env).2 =
        (if env.state_file_exists = true ∧ env.state_file_size = 0 then
           [Ev.getCredentials, Ev.removeEmptyState]
         else [Ev.getCredentials]) ++ [Ev.tfVersionCheck, Ev.tfInit] ++
        (if env.init_result.returncode ≠ 0 then ([] : List Ev) else [Ev.tfApply]) := by
      unfold deploy_terraform
      rw [hcred]
      dsimp only
      by_cases hi : env.init_result.returncode ≠ 0
      · rw [if_pos hi, if_pos hi]
        try simp
      · rw [if_neg hi, if_neg hi]
        try simp
    rw [hevs]
    refine ⟨?_, ?_, ?_⟩
    · rintro ⟨hex, hsz, _⟩
      rw [if_pos ⟨hex, hsz⟩]
      by_cases hi : env.init_result.returncode ≠ 0 <;>
        [rw [if_pos hi]; rw [if_neg hi]] <;> exact ⟨by decide, by decide⟩
    · intro hsz
      have hcond : ¬(env.state_file_exists = true ∧ env.state_file_size = 0) :=
        fun hcd => hsz hcd.2
      rw [if_neg hcond]
      by_cases hi : env.init_result.returncode ≠ 0 <;>
        [rw [if_pos hi]; rw [if_neg hi]] <;> decide
    · intro hex
      have hcond : ¬(env.state_file_exists = true ∧ env.state_file_size = 0) :=
        fun hcd => by rw [hex] at hcd; exact absurd hcd.1 (by decide)
      rw [if_neg hcond]
      by_cases hi : env.init_result.returncode ≠ 0 <;>
        [rw [if_pos hi]; rw [if_neg hi]] <;> decide

/-- A deploy environment with an empty state file; witnesses C10. -/
def deployEnvEmptyState : DeployEnv where
  credentials_result := .ok ()
  state_file_exists := true
  state_file_size := 0
  init_result := ⟨0, "Terraform has been successfully initialized!", ""⟩
  apply_result := ⟨0, "Apply complete!", ""⟩

theorem deploy_removes_empty_state_witness :
    Ev.removeEmptyState ∈ (deploy_terraform deployEnvEmptyState).2 ∧
    idxOfEv Ev.removeEmptyState (deploy_terraform deployEnvEmptyState).2 <
      idxOfEv Ev.tfInit (deploy_terraform deployEnvEmptyState).2 :=
  (deploy_removes_empty_state deployEnvEmptyState).1 ⟨rfl, rfl, by decide⟩

/-! ### C4 — extractor robustness: what it tolerates and what makes it raise -/

/-- `pyGet` on a dict always succeeds. -/
theorem pyGet_obj (fields : List (String × Json)) (k : String) (d : Json) :
    pyGet (Json.jobj fields) k d = .ok ((objGet fields k).getD d) := rfl

/-- An instance the extractor's inner loop can process without raising:
a dict whose `attributes` member, when present, is itself a dict. -/
def wellShapedInstance : Json → Bool
  | .jobj fields =>
    match objGet fields "attributes" with
    | none => true
    | some (.jobj _) => true
    | some _ => false
  | _ => false

/-- A resource the outer loop can process without raising: a dict whose
`instances` member, when present, is a list of well-shaped instances. -/
def wellShapedResource : Json → Bool
  | .jobj fields =>
    match objGet fields "instances" with
    | none => true
    | some (.jarr insts) => insts.all wellShapedInstance
    | some _ => false
  | _ => false

/-- A document the extractor handles without raising: falsy, or a dict whose
`resources` member, when present, is a list of well-shaped resources. -/
def wellShapedDoc (d : Json) : Bool :=
  if truthy d = false then true
  else
    match d with
    | .jobj fields =>
      match objGet fields "resources" with
      | none => true
      | some (.jarr rs) => rs.all wellShapedResource
      | some _ => false
    | _ => false

/-- `objGet` misses exactly when no binding carries the key. -/
theorem objGet_none_any_false (fields : List (String × Json)) (k : String) :
    objGet fields k = none ↔ fields.any (fun p => p.1 == k) = false := by
  unfold objGet
  cases hf : List.find? (fun p => p.1 == k) fields with
  | none =>
    simp only [Option.map]
    constructor
    · intro _
      rw [List.any_eq_false]
      intro x hx hpx
      exact (List.find?_eq_none.mp hf x hx) hpx
    · intro _; trivial
  | some x =>
    simp only [Option.map]
    constructor
    · intro hcontra; cases hcontra
    · intro hany
      rw [List.any_eq_false] at hany
      exact absurd (List.find?_some hf) (hany x (List.mem_of_find?_eq_some hf))

theorem processInstance_ok (resource_type : Json) (inv : ResourceInventory)
    (inst : Json) (h : wellShapedInstance inst = true) :
    ∃ inv', processInstance resource_type inv inst = .ok inv' := by
  cases inst with
  | jobj fields =>
    unfold wellShapedInstance at h
    dsimp only at h
    have hak : ∃ akvs, pyGet (Json.jobj fields) "attributes" (Json.jobj []) =
        .ok (Json.jobj akvs) := by
      cases hag : objGet fields "attributes" with
      | none => exact ⟨[], by simp [pyGet_obj, hag]⟩
      | some v =>
        rw [hag] at h
        cases v <;> dsimp only at h
        case jobj akvs => exact ⟨akvs, by simp [pyGet_obj, hag]⟩
        all_goals exact absurd h (by decide)
    obtain ⟨akvs, hak⟩ := hak
    unfold processInstance
    rw [hak]
    dsimp only
    simp only [pyGet_obj]
    repeat' split
    all_goals exact ⟨_, rfl⟩
  | null => simp [wellShapedInstance] at h
  | jbool b => simp [wellShapedInstance] at h
  | jnum n => simp [wellShapedInstance] at h
  | jstr s => simp [wellShapedInstance] at h
  | jarr items => simp [wellShapedInstance] at h

theorem processInstances_ok (resource_type : Json) (insts : List Json) :
    ∀ (inv : ResourceInventory), insts.all wellShapedInstance = true →
      ∃ inv', processInstances resource_type inv insts = .ok inv' := by
  induction insts with
  | nil => intro inv _; exact ⟨inv, rfl⟩
  | cons i rest ih =>
    intro inv hall
    rw [List.all_cons, Bool.and_eq_true] at hall
    obtain ⟨inv1, h1⟩ := processInstance_ok resource_type inv i hall.1
    obtain ⟨inv2, h2⟩ := ih inv1 hall.2
    refine ⟨inv2, ?_⟩
    unfold processInstances
    rw [h1]
    exact h2

theorem processResource_ok (inv : ResourceInventory) (resource : Json)
    (h : wellShapedResource resource = true) :
    ∃ inv', processResource inv resource = .ok inv' := by
  cases resource with
  | jobj fields =>
    unfold wellShapedResource at h
    dsimp only at h
    unfold processResource
    simp only [pyGet_obj]
    cases hins : objGet fields "instances" with
    | none => exact ⟨inv, rfl⟩
    | some v =>
      rw [hins] at h
      simp only [Option.getD_some]
      cases v with
      | jarr insts =>
        dsimp only at h
        simp only [pyIter]
        exact processInstances_ok _ insts inv h
      | null => dsimp only at h; exact absurd h (by decide)
      | jbool b => dsimp only at h; exact absurd h (by decide)
      | jnum n => dsimp only at h; exact absurd h (by decide)
      | jstr s => dsimp only at h; exact absurd h (by decide)
      | jobj kvs => dsimp only at h; exact absurd h (by decide)
  | null => simp [wellShapedResource] at h
  | jbool b => simp [wellShapedResource] at h
  | jnum n => simp [wellShapedResource] at h
  | jstr s => simp [wellShapedResource] at h
  | jarr items => simp [wellShapedResource] at h

theorem processResources_ok (rs : List Json) :
    ∀ (inv : ResourceInventory), rs.all wellShapedResource = true →
      ∃ inv', processResources inv rs = .ok inv' := by
  induction rs with
  | nil => intro inv _; exact ⟨inv, rfl⟩
  | cons r rest ih =>
    intro inv hall
    rw [List.all_cons, Bool.and_eq_true] at hall
    obtain ⟨inv1, h1⟩ := processResource_ok inv r hall.1
    obtain ⟨inv2, h2⟩ := ih inv1 hall.2
    refine ⟨inv2, ?_⟩
    unfold processResources
    rw [h1]
    exact h2

/-- C4 counterexample: a present but malformed `resources` field (here the
number 5) makes `extract_resources_from_state` raise a `TypeError` (modelled
as `Except.error`), not return an empty inventory. -/
theorem extract_malformed_resources_counterexample :
    extract_resources_from_state (Json.jobj [("resources", Json.jnum 5)]) =
      Except.error "TypeError: object is not iterable" := rfl

/-- C4 (amended): the extractor returns the empty inventory when the document
is falsy (absent/empty) or is a dict without a `resources` key, and it
succeeds without raising on any well-shaped document, silently skipping
instances that lack the identifying attribute (an instance with empty
attributes is skipped for every resource type, and processing continues with
the remaining instances); however a `resources` field that is not a list of
dicts raises a type error instead of yielding an empty inventory. -/
theorem extract_resources_robustness :
    (∀ d : Json, truthy d = false →
      extract_resources_from_state d = .ok emptyInventory) ∧
    (∀ fields : List (String × Json),
      fields.any (fun p => p.1 == "resources") = false →
      extract_resources_from_state (Json.jobj fields) = .ok emptyInventory) ∧
    (∀ d : Json, wellShapedDoc d = true →
      ∃ inv, extract_resources_from_state d = .ok inv) ∧
    (∀ (resource_type : Json) (inv : ResourceInventory),
      processInstance resource_type inv (Json.jobj [("attributes", Json.jobj [])]) =
        .ok inv) ∧
    (∀ (resource_type : Json) (inv : ResourceInventory) (rest : List Json),
      processInstances resource_type inv
          (Json.jobj [("attributes", Json.jobj [])] :: rest) =
        processInstances resource_type inv rest) := by
  have hskip : ∀ (resource_type : Json) (inv : ResourceInventory),
      processInstance resource_type inv (Json.jobj [("attributes", Json.jobj [])]) =
        .ok inv := by
    intro resource_type inv
    unfold processInstance
    rw [pyGet_obj]
    dsimp only
    by_cases h1 : Json.eqStr resource_type "aws_s3_bucket"
    · rw [if_pos h1]; try rfl
    · rw [if_neg h1]
      by_cases h2 : Json.eqStr resource_type "aws_lambda_function"
      · rw [if_pos h2]; try rfl
      · rw [if_neg h2]
        by_cases h3 : (Json.eqStr resource_type "aws_api_gateway_rest_api" ||
            Json.eqStr resource_type "aws_apigatewayv2_api") = true
        · rw [if_pos h3]; try rfl
        · rw [if_neg h3]
          by_cases h4 : Json.eqStr resource_type "aws_dynamodb_table"
          · rw [if_pos h4]; try rfl
          · rw [if_neg h4]
            by_cases h5 : Json.eqStr resource_type "aws_iam_role"
            · rw [if_pos h5]; try rfl
            · rw [if_neg h5]; try rfl
  refine ⟨?_, ?_, ?_, hskip, ?_⟩
  · intro d hd
    unfold extract_resources_from_state
    rw [if_pos hd]
  · intro fields hf
    unfold extract_resources_from_state
    by_cases ht : truthy (Json.jobj fields) = false
    · rw [if_pos ht]
    · rw [if_neg ht]
      simp only [pyIn]
      rw [if_pos hf]
  · intro d hd
    unfold wellShapedDoc at hd
    by_cases ht : truthy d = false
    · refine ⟨emptyInventory, ?_⟩
      unfold extract_resources_from_state
      rw [if_pos ht]
    · rw [if_neg ht] at hd
      cases d with
      | jobj fields =>
        dsimp only at hd
        unfold extract_resources_from_state
        rw [if_neg ht]
        cases hres : objGet fields "resources" with
        | none =>
          have hany := (objGet_none_any_false fields "resources").mp hres
          refine ⟨emptyInventory, ?_⟩
          simp only [pyIn]
          rw [if_pos hany]
        | some v =>
          try rw [hres] at hd
          cases v with
          | jarr rs =>
            dsimp only at hd
            have hany : fields.any (fun p => p.1 == "resources") = true := by
              cases hq : fields.any (fun p => p.1 == "resources") with
              | false =>
                rw [(objGet_none_any_false fields "resources").mpr hq] at hres
                cases hres
              | true => rfl
            simp only [pyIn]
            rw [if_neg (by simp [hany])]
            simp only [pyIndex, hres]
            simp only [pyIter]
            exact processResources_ok rs emptyInventory hd
          | null => dsimp only at hd; exact absurd hd (by decide)
          | jbool b => dsimp only at hd; exact absurd hd (by decide)
          | jnum n => dsimp only at hd; exact absurd hd (by decide)
          | jstr s => dsimp only at hd; exact absurd hd (by decide)
          | jobj kvs => dsimp only at hd; exact absurd hd (by decide)
      | null => exact absurd rfl ht
      | jbool b => simp at hd
      | jnum n => simp at hd
      | jstr s => simp at hd
      | jarr items => simp at hd
  · intro resource_type inv rest
    have hstep : processInstances resource_type inv
        (Json.jobj [("attributes", Json.jobj [])] :: rest) =
        match processInstance resource_type inv (Json.jobj [("attributes", Json.jobj [])]) with
        | .error e => .error e
        | .ok inv' => processInstances resource_type inv' rest := rfl
    rw [hstep, hskip resource_type inv]

/-- A well-shaped document with one bucket instance, one attribute-less
(skipped) instance, and one lambda instance; witnesses the amended C4. -/
def sampleStateDoc : Json :=
  Json.jobj [("resources", Json.jarr
    [Json.jobj [("type", Json.jstr "aws_s3_bucket"),
                ("instances", Json.jarr
                  [Json.jobj [("attributes", Json.jobj
                     [("bucket", Json.jstr "b1"),
                      ("arn", Json.jstr "arn:aws:s3:::b1"),
                      ("region", Json.jstr "us-east-1")])],
                   Json.jobj [("attributes", Json.jobj [])]])],
     Json.jobj [("type", Json.jstr "aws_lambda_function"),
                ("instances", Json.jarr
                  [Json.jobj [("attributes", Json.jobj
                     [("function_name", Json.jstr "f1"),
                      ("arn", Json.jstr "arn:aws:lambda:f1"),
                      ("role", Json.jstr "r1")])]])]])]

theorem extract_resources_robustness_witness :
    extract_resources_from_state Json.null = .ok emptyInventory ∧
    (∃ inv, extract_resources_from_state sampleStateDoc = .ok inv) :=
  ⟨(extract_resources_robustness).1 Json.null rfl,
   (extract_resources_robustness).2.2.1 sampleStateDoc (by decide)⟩

end TerraformRunner
